import Mathlib

/-
Verification of the deck-status updater (src/js/script.ts).

The script's single operation, `fetchDeckData`, resolves five DOM handles,
enters a loading state, issues one GET request, validates the JSON body,
renders the result or an error banner, and always restores the idle UI in
a `finally` clause.

The embedding below is trace-based: one invocation is modelled as the list
of observable events it performs (DOM mutations, console entries, the
network request), and the final page state is the left fold of those events
over the initial page.  This makes temporal claims (ordering of the loading
mutations and the fetch) and frame claims (which elements are touched)
directly statable, while state claims read off the folded page.
-/

namespace DeckStatus

/-- A JavaScript runtime value as discriminated by the catch clause of
`fetchDeckData` (script.ts lines 70-76): an `Error` instance carrying a
message, a primitive string, a non-null object exposing a `message`
property (such as the thrown `ApiError` object literal of lines 42-45;
its unread `status` field is dropped), or any other value. -/
inductive JsValue where
  | errorInstance (message : String)
  | rawString (s : String)
  | objectWithMessage (message : String)
  | otherValue
deriving DecidableEq, Repr

/-- The if chain of the catch clause (lines 68-76): prefer an Error
instance's message, else a raw string, else an object's `message` field
converted with `String(...)`, else the fallback constant. -/
def deriveErrorText : JsValue → String
  | .errorInstance m => m
  | .rawString s => s
  | .objectWithMessage m => m
  | .otherValue => "An unknown error occurred"

/-- One field of the parsed JSON body, tagged with its JavaScript runtime
type as inspected by the `typeof` checks of line 53.  `num` holds the
integral numbers the deck API returns; `strVal` and `missing` stand for
the values whose `typeof` is neither number nor boolean. -/
inductive JsField where
  | num (n : Int)
  | boolean (b : Bool)
  | strVal (s : String)
  | missing
deriving DecidableEq, Repr

/-- The `typeof x === number` test of line 53. -/
def JsField.isNumber : JsField → Bool
  | .num _ => true
  | _ => false

/-- The `typeof x === boolean` test of line 53. -/
def JsField.isBoolean : JsField → Bool
  | .boolean _ => true
  | _ => false

/-- The parsed JSON body in the `DeckApiResponse` shape (lines 2-7).
Every field is kept as a tagged runtime value because the body is produced
by `response.json()` and need not honour the declared interface. -/
structure DeckApiResponse where
  success : JsField
  deck_id : JsField
  shuffled : JsField
  remaining : JsField
deriving DecidableEq, Repr

/-- Outcome of `fetch(...)` and the subsequent `response.json()`: either
the fetch promise rejects with some value, or a response with an HTTP
status arrives and reading its body as JSON either rejects or yields a
parsed object. -/
inductive FetchResult where
  | rejected (e : JsValue)
  | resolved (status : Nat) (body : Except JsValue DeckApiResponse)
deriving Repr

/-- `Response.ok` per the WHATWG Fetch standard: the status is in the
range 200-299. -/
def responseOk (status : Nat) : Bool :=
  decide (200 ≤ status ∧ status ≤ 299)

/-- Observable state of one DOM element handle: text content, class list,
disabled flag, and inline display style. -/
structure ElementState where
  textContent : String
  classes : List String
  disabled : Bool
  display : String
deriving DecidableEq, Repr

/-- `classList.add`: appends the class when absent (DOMTokenList keeps the
list duplicate-free). -/
def classListAdd (cs : List String) (c : String) : List String :=
  if cs.contains c then cs else cs ++ [c]

/-- `classList.remove`: removes every occurrence of the class. -/
def classListRemove (cs : List String) (c : String) : List String :=
  cs.filter (fun x => x != c)

/-- The five element ids the script resolves with `getElementById`
(lines 18-22): remaining-cards, shuffle-status, deck-card, refresh-btn,
error-message. -/
inductive ElemId where
  | remainingCards
  | shuffleStatus
  | deckCard
  | refreshBtn
  | errorMessage
deriving DecidableEq, Repr

/-- One observable step of `fetchDeckData`: a DOM mutation on one of the
five handles, a console entry, or the network request. -/
inductive Event where
  | addClass (id : ElemId) (c : String)
  | removeClass (id : ElemId) (c : String)
  | setDisabled (id : ElemId) (v : Bool)
  | setText (id : ElemId) (v : String)
  | setDisplay (id : ElemId) (v : String)
  | consoleError (s : String)
  | consoleLog (s : String)
  | fetchRequest (url : String)
deriving DecidableEq, Repr

/-- Whether an event is the network request. -/
def Event.isFetch : Event → Bool
  | .fetchRequest _ => true
  | _ => false

/-- Whether an event writes an inline display style. -/
def Event.isSetDisplay : Event → Bool
  | .setDisplay _ _ => true
  | _ => false

/-- Whether an event is a console.error entry. -/
def Event.isConsoleError : Event → Bool
  | .consoleError _ => true
  | _ => false

/-- The page as the script sees it: the five handles (`none` models
`getElementById` returning null), the remaining DOM elements the script
never references, and the console log. -/
structure Page where
  remainingCards : Option ElementState
  shuffleStatus : Option ElementState
  deckCard : Option ElementState
  refreshBtn : Option ElementState
  errorMessage : Option ElementState
  rest : List ElementState
  log : List String
deriving DecidableEq, Repr

/-- Apply a mutation to the element a handle points at; a missing handle
stays missing. -/
def updateElem (p : Page) (id : ElemId) (f : ElementState → ElementState) : Page :=
  match id with
  | .remainingCards => { p with remainingCards := p.remainingCards.map f }
  | .shuffleStatus => { p with shuffleStatus := p.shuffleStatus.map f }
  | .deckCard => { p with deckCard := p.deckCard.map f }
  | .refreshBtn => { p with refreshBtn := p.refreshBtn.map f }
  | .errorMessage => { p with errorMessage := p.errorMessage.map f }

/-- The effect of one event on the page.  The network request does not
change the page; console entries append to the log. -/
def applyEvent (p : Page) : Event → Page
  | .addClass id c => updateElem p id (fun e => { e with classes := classListAdd e.classes c })
  | .removeClass id c => updateElem p id (fun e => { e with classes := classListRemove e.classes c })
  | .setDisabled id v => updateElem p id (fun e => { e with disabled := v })
  | .setText id v => updateElem p id (fun e => { e with textContent := v })
  | .setDisplay id v => updateElem p id (fun e => { e with display := v })
  | .consoleError s => { p with log := p.log ++ [s] }
  | .consoleLog s => { p with log := p.log ++ [s] }
  | .fetchRequest _ => p

/-- The request target of line 38. -/
def deckApiUrl : String :=
  "https://www.deckofcardsapi.com/api/deck/new/shuffle/?deck_count=1"

/-- Lines 31-34 followed by line 38: enter the loading state, then issue
the GET request. -/
def loadingAndFetchEvents : List Event :=
  [ .addClass .deckCard "loading",
    .setDisabled .refreshBtn true,
    .setText .refreshBtn "Loading...",
    .setDisplay .errorMessage "none",
    .fetchRequest deckApiUrl ]

/-- Lines 64-83: the catch clause applied to a caught value `e`; the
console.error arguments are rendered as one log string. -/
def catchEvents (e : JsValue) : List Event :=
  [ .consoleError ("Error fetching deck data: " ++ deriveErrorText e),
    .setText .remainingCards "Error",
    .setText .shuffleStatus "Error",
    .setText .errorMessage ("Failed to load deck data: " ++ deriveErrorText e),
    .setDisplay .errorMessage "block" ]

/-- Lines 85-90: the finally clause. -/
def finallyEvents : List Event :=
  [ .removeClass .deckCard "loading",
    .setDisabled .refreshBtn false,
    .setText .refreshBtn "Get New Deck" ]

/-- Lines 41-62 once the fetch has settled: the `response.ok` check with
its thrown `ApiError` (lines 41-47), the body read (line 50), the
structural validation (lines 53-55), and the success rendering and log
(lines 57-62); any thrown value lands in the catch clause of lines 64-83. -/
def afterFetchEvents (net : FetchResult) : List Event :=
  match net with
  | .rejected e => catchEvents e
  | .resolved status body =>
    if responseOk status then
      match body with
      | .error e => catchEvents e
      | .ok data =>
        match data.remaining, data.shuffled with
        | .num n, .boolean b =>
          [ .setText .remainingCards (toString n),
            .setText .shuffleStatus (if b then "Yes" else "No"),
            .consoleLog "Full API response" ]
        | _, _ => catchEvents (.errorInstance "Invalid API response structure")
    else
      catchEvents (.objectWithMessage ("HTTP error! status: " ++ toString status))

/-- The full observable trace of one invocation of `fetchDeckData`
(lines 16-91), given which handles resolve and how the network behaves.
When some handle is missing the function logs and returns before any
mutation (lines 25-28). -/
def fetchDeckDataTrace (page : Page) (net : FetchResult) : List Event :=
  match page.remainingCards, page.shuffleStatus, page.deckCard,
        page.refreshBtn, page.errorMessage with
  | some _, some _, some _, some _, some _ =>
    loadingAndFetchEvents ++ (afterFetchEvents net ++ finallyEvents)
  | _, _, _, _, _ => [ .consoleError "Required DOM elements not found" ]

/-- The final page state after one invocation of `fetchDeckData`: the
trace applied to the page, event by event. -/
def fetchDeckData (page : Page) (net : FetchResult) : Page :=
  (fetchDeckDataTrace page net).foldl applyEvent page

/-- Whether an element currently carries the `loading` class. -/
def hasLoadingClass (e : ElementState) : Bool :=
  e.classes.contains "loading"

/-- A blank element used to build concrete witness pages. -/
def blankElem : ElementState :=
  ⟨"", [], false, ""⟩

/-- A page on which every handle resolves. -/
def samplePage : Page :=
  ⟨some blankElem, some blankElem, some blankElem, some blankElem,
   some blankElem, [], []⟩

/-- A page whose remaining-cards handle does not resolve. -/
def missingPage : Page :=
  ⟨none, some blankElem, some blankElem, some blankElem,
   some blankElem, [], []⟩

/-- Removing a class with `classList.remove` leaves a class list that no
longer contains it. -/
theorem not_mem_classListRemove (cs : List String) (c : String) :
    c ∉ classListRemove cs c := by
  simp [classListRemove, List.mem_filter]

/-- C1: for every invocation in which all five DOM handles resolve and the
fetch returns an ok response whose JSON body has a numeric `remaining` r
and a boolean `shuffled` s, the remaining text field is set to the decimal
string of r and the shuffle-status text field is set to "Yes" when s is
true and "No" when s is false. -/
theorem success_renders_stats (page : Page) (status : Nat)
    (data : DeckApiResponse) (r : Int) (s : Bool)
    (re se dc rb em : ElementState)
    (h1 : page.remainingCards = some re) (h2 : page.shuffleStatus = some se)
    (h3 : page.deckCard = some dc) (h4 : page.refreshBtn = some rb)
    (h5 : page.errorMessage = some em)
    (hok : responseOk status = true)
    (hr : data.remaining = .num r) (hs : data.shuffled = .boolean s) :
    ((fetchDeckData page (.resolved status (.ok data))).remainingCards.map
        ElementState.textContent = some (toString r)) ∧
    ((fetchDeckData page (.resolved status (.ok data))).shuffleStatus.map
        ElementState.textContent = some (if s then "Yes" else "No")) := by
  rcases page with ⟨o1, o2, o3, o4, o5, rest, log⟩
  simp only [Page.remainingCards, Page.shuffleStatus, Page.deckCard,
    Page.refreshBtn, Page.errorMessage] at h1 h2 h3 h4 h5
  subst h1 h2 h3 h4 h5
  simp [fetchDeckData, fetchDeckDataTrace, loadingAndFetchEvents,
    afterFetchEvents, finallyEvents, catchEvents, applyEvent, updateElem,
    hok, hr, hs]

/-- Witness for C1 at a concrete page and a 200 response carrying
remaining 3 and shuffled true. -/
theorem success_renders_stats_witness :
    ((fetchDeckData samplePage
        (.resolved 200 (.ok ⟨.boolean true, .strVal "abc", .boolean true,
          .num 3⟩))).remainingCards.map ElementState.textContent
      = some "3") ∧
    ((fetchDeckData samplePage
        (.resolved 200 (.ok ⟨.boolean true, .strVal "abc", .boolean true,
          .num 3⟩))).shuffleStatus.map ElementState.textContent
      = some "Yes") :=
  success_renders_stats samplePage 200
    ⟨.boolean true, .strVal "abc", .boolean true, .num 3⟩ 3 true
    blankElem blankElem blankElem blankElem blankElem
    rfl rfl rfl rfl rfl rfl rfl rfl

/-- C2: for every invocation in which all five DOM handles resolve,
whatever the network outcome, the final state has the refresh button
enabled, its label equal to "Get New Deck", and the `loading` class absent
from the deck card: the finally clause always restores the idle UI. -/
theorem cleanup_restores_idle (page : Page) (net : FetchResult)
    (re se dc rb em : ElementState)
    (h1 : page.remainingCards = some re) (h2 : page.shuffleStatus = some se)
    (h3 : page.deckCard = some dc) (h4 : page.refreshBtn = some rb)
    (h5 : page.errorMessage = some em) :
    ((fetchDeckData page net).refreshBtn.map ElementState.disabled
      = some false) ∧
    ((fetchDeckData page net).refreshBtn.map ElementState.textContent
      = some "Get New Deck") ∧
    ((fetchDeckData page net).deckCard.map hasLoadingClass = some false) := by
  rcases page with ⟨o1, o2, o3, o4, o5, rest, log⟩
  simp only [Page.remainingCards, Page.shuffleStatus, Page.deckCard,
    Page.refreshBtn, Page.errorMessage] at h1 h2 h3 h4 h5
  subst h1 h2 h3 h4 h5
  rcases net with e | ⟨status, body⟩
  · simp [fetchDeckData, fetchDeckDataTrace, loadingAndFetchEvents,
      afterFetchEvents, finallyEvents, catchEvents, applyEvent, updateElem,
      hasLoadingClass, not_mem_classListRemove]
  · rcases body with e | ⟨su, di, sh, rem⟩
    · cases hok : responseOk status <;>
        simp [fetchDeckData, fetchDeckDataTrace, loadingAndFetchEvents,
          afterFetchEvents, finallyEvents, catchEvents, applyEvent,
          updateElem, hasLoadingClass, not_mem_classListRemove, hok]
    · cases hok : responseOk status <;> cases rem <;> cases sh <;>
        simp [fetchDeckData, fetchDeckDataTrace, loadingAndFetchEvents,
          afterFetchEvents, finallyEvents, catchEvents, applyEvent,
          updateElem, hasLoadingClass, not_mem_classListRemove, hok]

/-- Witness for C2 at a concrete page and a rejected fetch. -/
theorem cleanup_restores_idle_witness :
    ((fetchDeckData samplePage (.rejected .otherValue)).refreshBtn.map
        ElementState.disabled = some false) ∧
    ((fetchDeckData samplePage (.rejected .otherValue)).refreshBtn.map
        ElementState.textContent = some "Get New Deck") ∧
    ((fetchDeckData samplePage (.rejected .otherValue)).deckCard.map
        hasLoadingClass = some false) :=
  cleanup_restores_idle samplePage (.rejected .otherValue)
    blankElem blankElem blankElem blankElem blankElem
    rfl rfl rfl rfl rfl

/-- C3: for every invocation in which all five DOM handles resolve and the
response status is not ok, an ApiError object whose message embeds the
status code is thrown (visible in the trace), both stat fields end up
showing "Error", and the error banner becomes visible showing the message
prefixed with "Failed to load deck data: " and containing the decimal
status code. -/
theorem http_failure_shows_error (page : Page) (status : Nat)
    (body : Except JsValue DeckApiResponse) (re se dc rb em : ElementState)
    (h1 : page.remainingCards = some re) (h2 : page.shuffleStatus = some se)
    (h3 : page.deckCard = some dc) (h4 : page.refreshBtn = some rb)
    (h5 : page.errorMessage = some em)
    (hbad : responseOk status = false) :
    (fetchDeckDataTrace page (.resolved status body) =
      loadingAndFetchEvents ++
        (catchEvents (.objectWithMessage
          ("HTTP error! status: " ++ toString status)) ++ finallyEvents)) ∧
    ((fetchDeckData page (.resolved status body)).remainingCards.map
        ElementState.textContent = some "Error") ∧
    ((fetchDeckData page (.resolved status body)).shuffleStatus.map
        ElementState.textContent = some "Error") ∧
    ((fetchDeckData page (.resolved status body)).errorMessage.map
        ElementState.display = some "block") ∧
    ((fetchDeckData page (.resolved status body)).errorMessage.map
        ElementState.textContent =
      some ("Failed to load deck data: " ++
        ("HTTP error! status: " ++ toString status))) ∧
    (∃ a b, (fetchDeckData page (.resolved status body)).errorMessage.map
        ElementState.textContent = some (a ++ (toString status ++ b))) := by
  rcases page with ⟨o1, o2, o3, o4, o5, rest, log⟩
  simp only [Page.remainingCards, Page.shuffleStatus, Page.deckCard,
    Page.refreshBtn, Page.errorMessage] at h1 h2 h3 h4 h5
  subst h1 h2 h3 h4 h5
  refine ⟨?_, ?_, ?_, ?_, ?_,
    ⟨"Failed to load deck data: " ++ "HTTP error! status: ", "", ?_⟩⟩ <;>
    simp [fetchDeckData, fetchDeckDataTrace, loadingAndFetchEvents,
      afterFetchEvents, finallyEvents, catchEvents, deriveErrorText,
      applyEvent, updateElem, hbad, String.append_assoc]
  rw [← String.append_assoc]
  exact rfl

/-- Witness for C3 at a concrete page and a 429 response. -/
theorem http_failure_shows_error_witness :
    (fetchDeckDataTrace samplePage (.resolved 429 (.error .otherValue)) =
      loadingAndFetchEvents ++
        (catchEvents (.objectWithMessage
          ("HTTP error! status: " ++ toString 429)) ++ finallyEvents)) ∧
    ((fetchDeckData samplePage (.resolved 429 (.error .otherValue))).remainingCards.map
        ElementState.textContent = some "Error") ∧
    ((fetchDeckData samplePage (.resolved 429 (.error .otherValue))).shuffleStatus.map
        ElementState.textContent = some "Error") ∧
    ((fetchDeckData samplePage (.resolved 429 (.error .otherValue))).errorMessage.map
        ElementState.display = some "block") ∧
    ((fetchDeckData samplePage (.resolved 429 (.error .otherValue))).errorMessage.map
        ElementState.textContent =
      some ("Failed to load deck data: " ++
        ("HTTP error! status: " ++ toString 429))) ∧
    (∃ a b, (fetchDeckData samplePage (.resolved 429 (.error .otherValue))).errorMessage.map
        ElementState.textContent = some (a ++ (toString 429 ++ b))) :=
  http_failure_shows_error samplePage 429 (.error .otherValue)
    blankElem blankElem blankElem blankElem blankElem
    rfl rfl rfl rfl rfl rfl

/-- C4: for every invocation in which all five DOM handles resolve and an
ok response carries a body whose `remaining` is not numeric or whose
`shuffled` is not boolean, the generic validation Error is thrown (visible
in the trace), both stat fields show "Error", and the banner becomes
visible with the generic validation message. -/
theorem invalid_body_shows_error (page : Page) (status : Nat)
    (data : DeckApiResponse) (re se dc rb em : ElementState)
    (h1 : page.remainingCards = some re) (h2 : page.shuffleStatus = some se)
    (h3 : page.deckCard = some dc) (h4 : page.refreshBtn = some rb)
    (h5 : page.errorMessage = some em)
    (hok : responseOk status = true)
    (hbad : data.remaining.isNumber = false ∨ data.shuffled.isBoolean = false) :
    (fetchDeckDataTrace page (.resolved status (.ok data)) =
      loadingAndFetchEvents ++
        (catchEvents (.errorInstance "Invalid API response structure") ++
          finallyEvents)) ∧
    ((fetchDeckData page (.resolved status (.ok data))).remainingCards.map
        ElementState.textContent = some "Error") ∧
    ((fetchDeckData page (.resolved status (.ok data))).shuffleStatus.map
        ElementState.textContent = some "Error") ∧
    ((fetchDeckData page (.resolved status (.ok data))).errorMessage.map
        ElementState.display = some "block") ∧
    ((fetchDeckData page (.resolved status (.ok data))).errorMessage.map
        ElementState.textContent =
      some "Failed to load deck data: Invalid API response structure") := by
  rcases page with ⟨o1, o2, o3, o4, o5, rest, log⟩
  simp only [Page.remainingCards, Page.shuffleStatus, Page.deckCard,
    Page.refreshBtn, Page.errorMessage] at h1 h2 h3 h4 h5
  subst h1 h2 h3 h4 h5
  rcases data with ⟨su, di, sh, rem⟩
  cases rem <;> cases sh <;>
    simp_all [fetchDeckData, fetchDeckDataTrace, loadingAndFetchEvents,
      afterFetchEvents, finallyEvents, catchEvents, deriveErrorText,
      applyEvent, updateElem, JsField.isNumber, JsField.isBoolean]

/-- Witness for C4 at a concrete page and a 200 response whose `remaining`
is a string. -/
theorem invalid_body_shows_error_witness :
    (fetchDeckDataTrace samplePage
        (.resolved 200 (.ok ⟨.boolean true, .strVal "d", .boolean true,
          .strVal "three"⟩)) =
      loadingAndFetchEvents ++
        (catchEvents (.errorInstance "Invalid API response structure") ++
          finallyEvents)) ∧
    ((fetchDeckData samplePage
        (.resolved 200 (.ok ⟨.boolean true, .strVal "d", .boolean true,
          .strVal "three"⟩))).remainingCards.map
        ElementState.textContent = some "Error") ∧
    ((fetchDeckData samplePage
        (.resolved 200 (.ok ⟨.boolean true, .strVal "d", .boolean true,
          .strVal "three"⟩))).shuffleStatus.map
        ElementState.textContent = some "Error") ∧
    ((fetchDeckData samplePage
        (.resolved 200 (.ok ⟨.boolean true, .strVal "d", .boolean true,
          .strVal "three"⟩))).errorMessage.map
        ElementState.display = some "block") ∧
    ((fetchDeckData samplePage
        (.resolved 200 (.ok ⟨.boolean true, .strVal "d", .boolean true,
          .strVal "three"⟩))).errorMessage.map
        ElementState.textContent =
      some "Failed to load deck data: Invalid API response structure") :=
  invalid_body_shows_error samplePage 200
    ⟨.boolean true, .strVal "d", .boolean true, .strVal "three"⟩
    blankElem blankElem blankElem blankElem blankElem
    rfl rfl rfl rfl rfl rfl (Or.inl rfl)

/-- C5: when at least one of the five DOM handles is missing, the whole
invocation is one console.error entry: no fetch is issued (the trace holds
no request event) and no DOM element is mutated (the final page equals the
initial page with only the log extended). -/
theorem missing_handles_noop (page : Page) (net : FetchResult)
    (h : page.remainingCards = none ∨ page.shuffleStatus = none ∨
         page.deckCard = none ∨ page.refreshBtn = none ∨
         page.errorMessage = none) :
    (fetchDeckDataTrace page net =
      [.consoleError "Required DOM elements not found"]) ∧
    (fetchDeckData page net =
      { page with log := page.log ++ ["Required DOM elements not found"] }) := by
  rcases page with ⟨o1, o2, o3, o4, o5, rest, log⟩
  simp only [Page.remainingCards, Page.shuffleStatus, Page.deckCard,
    Page.refreshBtn, Page.errorMessage] at h
  cases o1 <;> cases o2 <;> cases o3 <;> cases o4 <;> cases o5 <;>
    simp_all [fetchDeckDataTrace, fetchDeckData, applyEvent]

/-- Witness for C5 at a page whose remaining-cards handle is missing. -/
theorem missing_handles_noop_witness :
    (fetchDeckDataTrace missingPage (.rejected .otherValue) =
      [.consoleError "Required DOM elements not found"]) ∧
    (fetchDeckData missingPage (.rejected .otherValue) =
      { missingPage with
          log := missingPage.log ++ ["Required DOM elements not found"] }) :=
  missing_handles_noop missingPage (.rejected .otherValue) (Or.inl rfl)

/-- C6: for every caught error value, the displayed banner text is the
caught value's display string under the fixed precedence (Error instance
message, else raw string, else an object's message field, else the
fallback constant), prefixed with "Failed to load deck data: ". -/
theorem error_text_fixed_precedence (page : Page) (e : JsValue)
    (re se dc rb em : ElementState)
    (h1 : page.remainingCards = some re) (h2 : page.shuffleStatus = some se)
    (h3 : page.deckCard = some dc) (h4 : page.refreshBtn = some rb)
    (h5 : page.errorMessage = some em) :
    (fetchDeckData page (.rejected e)).errorMessage.map
        ElementState.textContent =
      some ("Failed to load deck data: " ++
        (match e with
         | .errorInstance m => m
         | .rawString s => s
         | .objectWithMessage m => m
         | .otherValue => "An unknown error occurred")) := by
  rcases page with ⟨o1, o2, o3, o4, o5, rest, log⟩
  simp only [Page.remainingCards, Page.shuffleStatus, Page.deckCard,
    Page.refreshBtn, Page.errorMessage] at h1 h2 h3 h4 h5
  subst h1 h2 h3 h4 h5
  cases e <;>
    simp [fetchDeckData, fetchDeckDataTrace, loadingAndFetchEvents,
      afterFetchEvents, finallyEvents, catchEvents, deriveErrorText,
      applyEvent, updateElem]

/-- Witness for C6 at a fetch rejected with a value of no recognised
shape, displaying the fallback constant. -/
theorem error_text_fixed_precedence_witness :
    (fetchDeckData samplePage (.rejected .otherValue)).errorMessage.map
        ElementState.textContent =
      some ("Failed to load deck data: " ++ "An unknown error occurred") :=
  error_text_fixed_precedence samplePage .otherValue
    blankElem blankElem blankElem blankElem blankElem
    rfl rfl rfl rfl rfl

/-- C7: when all five DOM handles resolve, the trace begins with the four
loading-state mutations (loading class on the card, button disabled,
button label "Loading...", banner hidden) and only then the network
request: the loading mutations strictly precede the fetch. -/
theorem loading_precedes_fetch (page : Page) (net : FetchResult)
    (re se dc rb em : ElementState)
    (h1 : page.remainingCards = some re) (h2 : page.shuffleStatus = some se)
    (h3 : page.deckCard = some dc) (h4 : page.refreshBtn = some rb)
    (h5 : page.errorMessage = some em) :
    ∃ tail, fetchDeckDataTrace page net =
      [ .addClass .deckCard "loading",
        .setDisabled .refreshBtn true,
        .setText .refreshBtn "Loading...",
        .setDisplay .errorMessage "none",
        .fetchRequest deckApiUrl ] ++ tail := by
  rcases page with ⟨o1, o2, o3, o4, o5, rest, log⟩
  simp only [Page.remainingCards, Page.shuffleStatus, Page.deckCard,
    Page.refreshBtn, Page.errorMessage] at h1 h2 h3 h4 h5
  subst h1 h2 h3 h4 h5
  exact ⟨afterFetchEvents net ++ finallyEvents, rfl⟩

/-- Witness for C7 at a concrete page and a 200 response. -/
theorem loading_precedes_fetch_witness :
    ∃ tail, fetchDeckDataTrace samplePage
        (.resolved 200 (.ok ⟨.boolean true, .strVal "d", .boolean true,
          .num 3⟩)) =
      [ .addClass .deckCard "loading",
        .setDisabled .refreshBtn true,
        .setText .refreshBtn "Loading...",
        .setDisplay .errorMessage "none",
        .fetchRequest deckApiUrl ] ++ tail :=
  loading_precedes_fetch samplePage
    (.resolved 200 (.ok ⟨.boolean true, .strVal "d", .boolean true, .num 3⟩))
    blankElem blankElem blankElem blankElem blankElem
    rfl rfl rfl rfl rfl

/-- C8: when all five DOM handles resolve, the trace contains exactly one
network request, whatever the network outcome, and its target is the exact
deck-shuffle URL: one GET, no retries. -/
theorem single_fetch_exact_url (page : Page) (net : FetchResult)
    (re se dc rb em : ElementState)
    (h1 : page.remainingCards = some re) (h2 : page.shuffleStatus = some se)
    (h3 : page.deckCard = some dc) (h4 : page.refreshBtn = some rb)
    (h5 : page.errorMessage = some em) :
    (fetchDeckDataTrace page net).filter Event.isFetch =
      [.fetchRequest
        "https://www.deckofcardsapi.com/api/deck/new/shuffle/?deck_count=1"] := by
  rcases page with ⟨o1, o2, o3, o4, o5, rest, log⟩
  simp only [Page.remainingCards, Page.shuffleStatus, Page.deckCard,
    Page.refreshBtn, Page.errorMessage] at h1 h2 h3 h4 h5
  subst h1 h2 h3 h4 h5
  rcases net with e | ⟨status, body⟩
  · simp [fetchDeckDataTrace, loadingAndFetchEvents, afterFetchEvents,
      finallyEvents, catchEvents, deckApiUrl, Event.isFetch]
  · rcases body with e | ⟨su, di, sh, rem⟩
    · cases hok : responseOk status <;>
        simp [fetchDeckDataTrace, loadingAndFetchEvents, afterFetchEvents,
          finallyEvents, catchEvents, deckApiUrl, Event.isFetch, hok]
    · cases hok : responseOk status <;> cases rem <;> cases sh <;>
        simp [fetchDeckDataTrace, loadingAndFetchEvents, afterFetchEvents,
          finallyEvents, catchEvents, deckApiUrl, Event.isFetch, hok]

/-- Witness for C8 at a concrete page and a rejected fetch. -/
theorem single_fetch_exact_url_witness :
    (fetchDeckDataTrace samplePage (.rejected .otherValue)).filter
        Event.isFetch =
      [.fetchRequest
        "https://www.deckofcardsapi.com/api/deck/new/shuffle/?deck_count=1"] :=
  single_fetch_exact_url samplePage (.rejected .otherValue)
    blankElem blankElem blankElem blankElem blankElem
    rfl rfl rfl rfl rfl

/-- C9: the structural validation looks only at the runtime types of
`remaining` and `shuffled`: for every ok response whose body has numeric
`remaining` and boolean `shuffled`, whatever values (wrong-typed or
missing) `success` and `deck_id` hold, the invocation takes the success
path (no console.error entry in the trace) and renders the stat fields. -/
theorem validation_checks_only_two_fields (page : Page) (status : Nat)
    (su di : JsField) (r : Int) (s : Bool)
    (re se dc rb em : ElementState)
    (h1 : page.remainingCards = some re) (h2 : page.shuffleStatus = some se)
    (h3 : page.deckCard = some dc) (h4 : page.refreshBtn = some rb)
    (h5 : page.errorMessage = some em)
    (hok : responseOk status = true) :
    ((fetchDeckData page
        (.resolved status (.ok ⟨su, di, .boolean s, .num r⟩))).remainingCards.map
        ElementState.textContent = some (toString r)) ∧
    ((fetchDeckData page
        (.resolved status (.ok ⟨su, di, .boolean s, .num r⟩))).shuffleStatus.map
        ElementState.textContent = some (if s then "Yes" else "No")) ∧
    ((fetchDeckDataTrace page
        (.resolved status (.ok ⟨su, di, .boolean s, .num r⟩))).filter
        Event.isConsoleError = []) := by
  rcases page with ⟨o1, o2, o3, o4, o5, rest, log⟩
  simp only [Page.remainingCards, Page.shuffleStatus, Page.deckCard,
    Page.refreshBtn, Page.errorMessage] at h1 h2 h3 h4 h5
  subst h1 h2 h3 h4 h5
  simp [fetchDeckData, fetchDeckDataTrace, loadingAndFetchEvents,
    afterFetchEvents, finallyEvents, applyEvent, updateElem,
    Event.isConsoleError, hok]

/-- Witness for C9 at a 200 response whose `success` and `deck_id` fields
are both absent. -/
theorem validation_checks_only_two_fields_witness :
    ((fetchDeckData samplePage
        (.resolved 200 (.ok ⟨.missing, .missing, .boolean false,
          .num 52⟩))).remainingCards.map
        ElementState.textContent = some "52") ∧
    ((fetchDeckData samplePage
        (.resolved 200 (.ok ⟨.missing, .missing, .boolean false,
          .num 52⟩))).shuffleStatus.map
        ElementState.textContent = some "No") ∧
    ((fetchDeckDataTrace samplePage
        (.resolved 200 (.ok ⟨.missing, .missing, .boolean false,
          .num 52⟩))).filter Event.isConsoleError = []) :=
  validation_checks_only_two_fields samplePage 200 .missing .missing 52 false
    blankElem blankElem blankElem blankElem blankElem
    rfl rfl rfl rfl rfl rfl

/-- C10: on every successful invocation the banner display is set to
"none" among the pre-fetch loading mutations and no other display write
occurs in the whole trace; the banner keeps its old text with display
"none", and the DOM elements outside the five handles are untouched. -/
theorem success_frame (page : Page) (status : Nat)
    (data : DeckApiResponse) (r : Int) (s : Bool)
    (re se dc rb em : ElementState)
    (h1 : page.remainingCards = some re) (h2 : page.shuffleStatus = some se)
    (h3 : page.deckCard = some dc) (h4 : page.refreshBtn = some rb)
    (h5 : page.errorMessage = some em)
    (hok : responseOk status = true)
    (hr : data.remaining = .num r) (hs : data.shuffled = .boolean s) :
    ((fetchDeckDataTrace page (.resolved status (.ok data))).filter
        Event.isSetDisplay = [.setDisplay .errorMessage "none"]) ∧
    (∃ tail, fetchDeckDataTrace page (.resolved status (.ok data)) =
      [ .addClass .deckCard "loading",
        .setDisabled .refreshBtn true,
        .setText .refreshBtn "Loading...",
        .setDisplay .errorMessage "none",
        .fetchRequest deckApiUrl ] ++ tail) ∧
    ((fetchDeckData page (.resolved status (.ok data))).errorMessage =
      some { em with display := "none" }) ∧
    ((fetchDeckData page (.resolved status (.ok data))).rest = page.rest) := by
  rcases page with ⟨o1, o2, o3, o4, o5, rest, log⟩
  simp only [Page.remainingCards, Page.shuffleStatus, Page.deckCard,
    Page.refreshBtn, Page.errorMessage, Page.rest] at h1 h2 h3 h4 h5 ⊢
  subst h1 h2 h3 h4 h5
  refine ⟨?_, ⟨afterFetchEvents (.resolved status (.ok data)) ++
    finallyEvents, rfl⟩, ?_, ?_⟩ <;>
    simp [fetchDeckData, fetchDeckDataTrace, loadingAndFetchEvents,
      afterFetchEvents, finallyEvents, applyEvent, updateElem,
      Event.isSetDisplay, hok, hr, hs]

/-- Witness for C10 at a concrete page and a 200 response carrying
remaining 3 and shuffled true. -/
theorem success_frame_witness :
    ((fetchDeckDataTrace samplePage
        (.resolved 200 (.ok ⟨.boolean true, .strVal "d", .boolean true,
          .num 3⟩))).filter
        Event.isSetDisplay = [.setDisplay .errorMessage "none"]) ∧
    (∃ tail, fetchDeckDataTrace samplePage
        (.resolved 200 (.ok ⟨.boolean true, .strVal "d", .boolean true,
          .num 3⟩)) =
      [ .addClass .deckCard "loading",
        .setDisabled .refreshBtn true,
        .setText .refreshBtn "Loading...",
        .setDisplay .errorMessage "none",
        .fetchRequest deckApiUrl ] ++ tail) ∧
    ((fetchDeckData samplePage
        (.resolved 200 (.ok ⟨.boolean true, .strVal "d", .boolean true,
          .num 3⟩))).errorMessage =
      some { blankElem with display := "none" }) ∧
    ((fetchDeckData samplePage
        (.resolved 200 (.ok ⟨.boolean true, .strVal "d", .boolean true,
          .num 3⟩))).rest = samplePage.rest) :=
  success_frame samplePage 200
    ⟨.boolean true, .strVal "d", .boolean true, .num 3⟩ 3 true
    blankElem blankElem blankElem blankElem blankElem
    rfl rfl rfl rfl rfl rfl rfl rfl

end DeckStatus
